import Mathlib

/-!
Verification development for the board support package (BSP) bring-up
sequencer in `cybsp.c` (function `cybsp_init` and its helper
`cybsp_register_sysclk_pm_callback`).

The embedding models the sequencer's state as an explicit `BoardState`
(resource registry, power-mode callback chain, applied-configuration flag,
supply voltage, deep-sleep lock count), the build-time preprocessor
conditionals as a `BuildCfg` record, and the outcomes of the fallible
platform services that are outside this repository as an `Env` record.
Every externally visible call made by `cybsp_init` is also recorded in an
event trace so that ordering and skipping behaviour can be stated.
-/

/-- Kind tag of a hardware resource (`cyhal_resource_t`).  Only the clock
kind is exercised by `cybsp_init`; one further kind witnesses that other
resources exist. -/
inductive CyhalResourceKind where
  | clock
  | gpio
deriving DecidableEq

/-- `cyhal_resource_inst_t`: a hardware block identifier, compared by
value: (kind, block number, channel number). -/
structure CyhalResourceInst where
  kind : CyhalResourceKind
  block_num : Nat
  channel_num : Nat
deriving DecidableEq

/-- Result codes observable from `cybsp_init`.  `success` is
`CY_RSLT_SUCCESS`; `sysclkPmCallbackError` is
`CYBSP_RSLT_ERR_SYSCLK_PM_CALLBACK`; `inUse r` is the hardware manager's
already-reserved error (`CYHAL_HWMGR_RSLT_ERR_INUSE`), carrying (per the
registry model) the block whose reservation conflicted. -/
inductive CyRslt where
  | success
  | hwmgrInitError
  | syspmInitError
  | sysclkPmCallbackError
  | inUse (r : CyhalResourceInst)
deriving DecidableEq

/-- Power-mode transition kinds for callbacks (`cy_en_syspm_callback_type_t`);
`cybsp.c` uses only `CY_SYSPM_DEEPSLEEP`. -/
inductive CySyspmCallbackKind where
  | deepsleep
  | hibernate
deriving DecidableEq

/-- Opaque callback handler identity.  `sysClkDeepSleepCallback` stands for
`Cy_SysClk_DeepSleepCallback`; `app n` stands for an arbitrary
application-registered handler. -/
inductive CySyspmCallbackFn where
  | sysClkDeepSleepCallback
  | app (n : Nat)
deriving DecidableEq

/-- `cy_stc_syspm_callback_t`: handler, transition kind and priority order.
The C `order` field is a `uint8_t`, embedded as `Fin 256`. -/
structure CyStcSyspmCallback where
  callback : CySyspmCallbackFn
  kind : CySyspmCallbackKind
  order : Fin 256
deriving DecidableEq

/-- Process-wide mutable state touched by the bring-up sequencer. -/
structure BoardState where
  /-- Resource registry: blocks currently reserved (exclusive ownership). -/
  reserved : List CyhalResourceInst
  /-- Power-mode callback chain, kept ordered by priority ascending. -/
  callbacks : List CyStcSyspmCallback
  /-- Whether the generated static configuration has been applied. -/
  cfgApplied : Bool
  /-- Analog supply voltage (mV) last programmed, if any. -/
  vdda : Option Nat
  /-- Number of times deep-sleep entry has been locked. -/
  deepsleepLocks : Nat
deriving DecidableEq

/-- Outcomes of the fallible platform services that live outside this
repository: whether `cyhal_hwmgr_init` and `cyhal_syspm_init` succeed, and
the capacity of the power-mode callback chain's slot table. -/
structure Env where
  hwmgrInitOk : Bool
  syspmInitOk : Bool
  callbackCapacity : Nat
deriving DecidableEq

/-- Build-time preprocessor configuration of `cybsp.c`. -/
structure BuildCfg where
  /-- `CY_USING_HAL` defined: resource tracking and HAL services in use. -/
  usingHal : Bool
  /-- `CY_USING_HAL_LITE` defined (only consulted when `usingHal` is off). -/
  usingHalLite : Bool
  /-- `CY_CFG_PWR_VDDA_MV` as supplied by the build, `none` when the build
  does not define it (lines 43-45 then default it to 3300). -/
  vddaMv : Option Nat
  /-- `CY_CFG_PWR_SYS_IDLE_MODE` defined. -/
  sysIdleMode : Bool
deriving DecidableEq

/-- Externally visible calls made by `cybsp_init`, in program order. -/
inductive Event where
  | hwmgrInit
  | syspmInit
  | setSupplyVoltage (mv : Nat)
  | initCycfgAll
  | registerSysclkCallback
  | lockDeepSleep
  | reserve (r : CyhalResourceInst)
deriving DecidableEq

/-- `CYHAL_CLOCK_BLOCK_PERIPHERAL_16BIT`: block number of the 16-bit
peripheral clock dividers (opaque numeric identity from the HAL headers). -/
def CYHAL_CLOCK_BLOCK_PERIPHERAL_16BIT : Nat := 2

/-- Lines 54-56: default priority order of the sysclk deep-sleep power
callback (`255u`, the largest value of the `uint8_t` order field). -/
def CYBSP_SYSCLK_PM_CALLBACK_ORDER : Fin 256 := 255

/-- Lines 43-45: effective `CY_CFG_PWR_VDDA_MV` — the build-supplied value,
defaulted to 3300 mV when the build does not define it. -/
def CY_CFG_PWR_VDDA_MV (cfg : BuildCfg) : Nat := cfg.vddaMv.getD 3300

/-- Lines 132-134: the first default-reserved block, 16-bit peripheral
clock divider channel 0. -/
def clock1 : CyhalResourceInst :=
  { kind := CyhalResourceKind.clock
    block_num := CYHAL_CLOCK_BLOCK_PERIPHERAL_16BIT
    channel_num := 0 }

/-- Lines 135-137: the second default-reserved block, 16-bit peripheral
clock divider channel 1. -/
def clock2 : CyhalResourceInst :=
  { kind := CyhalResourceKind.clock
    block_num := CYHAL_CLOCK_BLOCK_PERIPHERAL_16BIT
    channel_num := 1 }

/-- Lines 69-75: the static sysclk deep-sleep callback structure registered
by `cybsp_register_sysclk_pm_callback`. -/
def cybsp_sysclk_pm_callback : CyStcSyspmCallback :=
  { callback := CySyspmCallbackFn.sysClkDeepSleepCallback
    kind := CySyspmCallbackKind.deepsleep
    order := CYBSP_SYSCLK_PM_CALLBACK_ORDER }

/-- The process-start state: empty registry, empty callback chain, nothing
configured. -/
def emptyBoardState : BoardState :=
  { reserved := [], callbacks := [], cfgApplied := false, vdda := none
    deepsleepLocks := 0 }

/-- The configuration-relevant part of the board state: applied-configuration
flag, supply voltage and resource registry (callback chain and lock count
are bring-up bookkeeping, not configuration). -/
def configState (s : BoardState) : Bool × Option Nat × List CyhalResourceInst :=
  (s.cfgApplied, s.vdda, s.reserved)

/-- Modelled from the spec: insertion into the power-mode callback chain —
ordered by priority ascending, ties broken by registration order (stable),
so a new callback is placed after every existing callback of smaller or
equal order. -/
def insertByOrder (cb : CyStcSyspmCallback) :
    List CyStcSyspmCallback → List CyStcSyspmCallback
  | [] => [cb]
  | c :: cs =>
    if c.order ≤ cb.order then c :: insertByOrder cb cs else cb :: c :: cs

/-- Modelled from the spec: `Cy_SysPm_RegisterCallback`, the platform
power-mode registration service (not in this repository).  The chain has a
fixed-capacity slot table; registration fails exactly when the table is
exhausted, and otherwise inserts the callback by priority. -/
def Cy_SysPm_RegisterCallback (env : Env) (cb : CyStcSyspmCallback)
    (s : BoardState) : Bool × BoardState :=
  if s.callbacks.length < env.callbackCapacity then
    (true, { s with callbacks := insertByOrder cb s.callbacks })
  else
    (false, s)

/-- Modelled from the spec: `cyhal_hwmgr_init`, initialization of the
resource registry's backing store (not in this repository).  It may fail
(environment-determined) and does not disturb existing reservations. -/
def cyhal_hwmgr_init (env : Env) (s : BoardState) : CyRslt × BoardState :=
  (if env.hwmgrInitOk then CyRslt.success else CyRslt.hwmgrInitError, s)

/-- Modelled from the spec: `cyhal_syspm_init`, initialization of the
power-management service (not in this repository). -/
def cyhal_syspm_init (env : Env) (s : BoardState) : CyRslt × BoardState :=
  (if env.syspmInitOk then CyRslt.success else CyRslt.syspmInitError, s)

/-- Modelled from the spec: `cyhal_syspm_set_supply_voltage` (and its
HAL-lite variant `cyhal_system_set_supply_voltage`) — records the target
analog supply voltage. -/
def cyhal_syspm_set_supply_voltage (mv : Nat) (s : BoardState) : BoardState :=
  { s with vdda := some mv }

/-- Modelled from the spec: `init_cycfg_all`, the configuration applier —
side-effect-only, cannot fail, idempotent (applying twice yields the same
end state as applying once). -/
def init_cycfg_all (s : BoardState) : BoardState :=
  { s with cfgApplied := true }

/-- Modelled from the spec: `cyhal_syspm_lock_deepsleep` (and the MBED
variant `sleep_manager_lock_deep_sleep`) — takes one deep-sleep lock. -/
def cyhal_syspm_lock_deepsleep (s : BoardState) : BoardState :=
  { s with deepsleepLocks := s.deepsleepLocks + 1 }

/-- Modelled from the spec: `cyhal_hwmgr_reserve`, the resource registry's
reserve operation — fails with the already-reserved (in-use) error when the
block is currently held by any owner, otherwise records the reservation. -/
def cyhal_hwmgr_reserve (r : CyhalResourceInst) (s : BoardState) :
    CyRslt × BoardState :=
  if r ∈ s.reserved then (CyRslt.inUse r, s)
  else (CyRslt.success, { s with reserved := r :: s.reserved })

/-- Lines 65-82: `cybsp_register_sysclk_pm_callback` — registers the static
sysclk deep-sleep callback and maps a registration failure to
`CYBSP_RSLT_ERR_SYSCLK_PM_CALLBACK`. -/
def cybsp_register_sysclk_pm_callback (env : Env) (s : BoardState) :
    CyRslt × BoardState :=
  let p := Cy_SysPm_RegisterCallback env cybsp_sysclk_pm_callback s
  if p.1 then (CyRslt.success, p.2) else (CyRslt.sysclkPmCallbackError, p.2)

/-- Lines 92-101 of `cybsp_init`: with `CY_USING_HAL`, run
`cyhal_hwmgr_init` and, only if it succeeded, `cyhal_syspm_init`; without
`CY_USING_HAL` the result starts out as `CY_RSLT_SUCCESS`. -/
def cybsp_init_sysInit (cfg : BuildCfg) (env : Env) (s : BoardState) :
    CyRslt × BoardState × List Event :=
  if cfg.usingHal then
    let p := cyhal_hwmgr_init env s
    if p.1 = CyRslt.success then
      let q := cyhal_syspm_init env p.2
      (q.1, q.2, [Event.hwmgrInit, Event.syspmInit])
    else
      (p.1, p.2, [Event.hwmgrInit])
  else
    (CyRslt.success, s, [])

/-- Lines 103-112 of `cybsp_init`: `CY_CFG_PWR_VDDA_MV` is always defined
(lines 43-45 default it), so when the result so far is success the supply
voltage is set — through `cyhal_syspm_set_supply_voltage` under
`CY_USING_HAL`, through `cyhal_system_set_supply_voltage` under
`CY_USING_HAL_LITE`, and not at all when neither is defined. -/
def cybsp_init_vdda (cfg : BuildCfg) (result : CyRslt) (s : BoardState) :
    BoardState × List Event :=
  if result = CyRslt.success then
    if cfg.usingHal || cfg.usingHalLite then
      (cyhal_syspm_set_supply_voltage (CY_CFG_PWR_VDDA_MV cfg) s,
       [Event.setSupplyVoltage (CY_CFG_PWR_VDDA_MV cfg)])
    else (s, [])
  else (s, [])

/-- Lines 116-119 of `cybsp_init`: register the sysclk power-mode callback,
only when no earlier step failed. -/
def cybsp_init_pmCallback (env : Env) (result : CyRslt) (s : BoardState) :
    CyRslt × BoardState × List Event :=
  if result = CyRslt.success then
    let p := cybsp_register_sysclk_pm_callback env s
    (p.1, p.2, [Event.registerSysclkCallback])
  else (result, s, [])

/-- Lines 121-150 of `cybsp_init`: under `CY_USING_HAL`, lock deep sleep
(unconditionally, unless `CY_CFG_PWR_SYS_IDLE_MODE` is defined) and then
reserve the two default clock-divider blocks, each reservation attempted
only while the running result is still success. -/
def cybsp_init_halTail (cfg : BuildCfg) (result : CyRslt) (s : BoardState) :
    CyRslt × BoardState × List Event :=
  if cfg.usingHal then
    let lockPart : BoardState × List Event :=
      if cfg.sysIdleMode then (s, [])
      else (cyhal_syspm_lock_deepsleep s, [Event.lockDeepSleep])
    let afterC1 : CyRslt × BoardState × List Event :=
      if result = CyRslt.success then
        let p := cyhal_hwmgr_reserve clock1 lockPart.1
        (p.1, p.2, lockPart.2 ++ [Event.reserve clock1])
      else (result, lockPart.1, lockPart.2)
    if afterC1.1 = CyRslt.success then
      let q := cyhal_hwmgr_reserve clock2 afterC1.2.1
      (q.1, q.2, afterC1.2.2 ++ [Event.reserve clock2])
    else afterC1
  else (result, s, [])

/-- Lines 88-152: `cybsp_init`, the bring-up sequencer.  Returns the
aggregate result, the final board state, and the trace of externally
visible calls in program order. -/
def cybsp_init (cfg : BuildCfg) (env : Env) (s0 : BoardState) :
    CyRslt × BoardState × List Event :=
  let a := cybsp_init_sysInit cfg env s0
  let b := cybsp_init_vdda cfg a.1 a.2.1
  let s3 := init_cycfg_all b.1
  let c := cybsp_init_pmCallback env a.1 s3
  let d := cybsp_init_halTail cfg c.1 c.2.1
  (d.1, d.2.1, a.2.2 ++ b.2 ++ [Event.initCycfgAll] ++ c.2.2 ++ d.2.2)

/-! ### Helper lemmas about the sequencer stages -/

theorem sysInit_state_eq (cfg : BuildCfg) (env : Env) (s : BoardState) :
    (cybsp_init_sysInit cfg env s).2.1 = s := by
  unfold cybsp_init_sysInit cyhal_hwmgr_init cyhal_syspm_init
  split <;> simp_all <;> split <;> simp_all

theorem sysInit_trace_shape (cfg : BuildCfg) (env : Env) (s : BoardState) :
    (cybsp_init_sysInit cfg env s).2.2 = [] ∨
    (cybsp_init_sysInit cfg env s).2.2 = [Event.hwmgrInit] ∨
    (cybsp_init_sysInit cfg env s).2.2 = [Event.hwmgrInit, Event.syspmInit] := by
  unfold cybsp_init_sysInit
  split <;> simp_all <;> split <;> simp_all

theorem vdda_trace_shape (cfg : BuildCfg) (r : CyRslt) (s : BoardState) :
    (cybsp_init_vdda cfg r s).2 = [] ∨
    (cybsp_init_vdda cfg r s).2 =
      [Event.setSupplyVoltage (CY_CFG_PWR_VDDA_MV cfg)] := by
  unfold cybsp_init_vdda
  split <;> [split <;> simp_all; simp_all]

theorem pmCallback_trace_shape (env : Env) (r : CyRslt) (s : BoardState) :
    (cybsp_init_pmCallback env r s).2.2 = [] ∨
    (cybsp_init_pmCallback env r s).2.2 = [Event.registerSysclkCallback] := by
  unfold cybsp_init_pmCallback
  split <;> simp_all

theorem halTail_trace_shape (cfg : BuildCfg) (r : CyRslt) (s : BoardState) :
    ∀ e ∈ (cybsp_init_halTail cfg r s).2.2,
      e = Event.lockDeepSleep ∨ e = Event.reserve clock1 ∨
      e = Event.reserve clock2 := by
  unfold cybsp_init_halTail
  repeat' split <;> simp_all

theorem pmCallback_preserves_cfgApplied (env : Env) (r : CyRslt)
    (s : BoardState) :
    (cybsp_init_pmCallback env r s).2.1.cfgApplied = s.cfgApplied := by
  unfold cybsp_init_pmCallback cybsp_register_sysclk_pm_callback
    Cy_SysPm_RegisterCallback
  repeat' split <;> simp_all

theorem halTail_preserves_cfgApplied (cfg : BuildCfg) (r : CyRslt)
    (s : BoardState) :
    (cybsp_init_halTail cfg r s).2.1.cfgApplied = s.cfgApplied := by
  unfold cybsp_init_halTail cyhal_hwmgr_reserve cyhal_syspm_lock_deepsleep
  repeat' split <;> simp_all

/-! ### Claim C2 -/

/-- Claim C2: on every run of `cybsp_init` the configuration-apply step
`init_cycfg_all` is executed exactly once (the trace contains exactly one
`initCycfgAll` event), unconditionally — in particular the final state
always has the static configuration applied, even when the run returns a
non-success result. -/
theorem claimC2_config_apply_unconditional (cfg : BuildCfg) (env : Env)
    (s : BoardState) :
    ((cybsp_init cfg env s).2.2).count Event.initCycfgAll = 1 ∧
    (cybsp_init cfg env s).2.1.cfgApplied = true := by
  constructor
  · simp only [cybsp_init, List.count_append]
    have h1 := sysInit_trace_shape cfg env s
    have h2 := vdda_trace_shape cfg (cybsp_init_sysInit cfg env s).1
      (cybsp_init_sysInit cfg env s).2.1
    have h3 := pmCallback_trace_shape env (cybsp_init_sysInit cfg env s).1
      (init_cycfg_all (cybsp_init_vdda cfg (cybsp_init_sysInit cfg env s).1
        (cybsp_init_sysInit cfg env s).2.1).1)
    have h4 := halTail_trace_shape cfg
      (cybsp_init_pmCallback env (cybsp_init_sysInit cfg env s).1
        (init_cycfg_all (cybsp_init_vdda cfg (cybsp_init_sysInit cfg env s).1
          (cybsp_init_sysInit cfg env s).2.1).1)).1
      (cybsp_init_pmCallback env (cybsp_init_sysInit cfg env s).1
        (init_cycfg_all (cybsp_init_vdda cfg (cybsp_init_sysInit cfg env s).1
          (cybsp_init_sysInit cfg env s).2.1).1)).2.1
    have c4 : (List.count Event.initCycfgAll
        (cybsp_init_halTail cfg
          (cybsp_init_pmCallback env (cybsp_init_sysInit cfg env s).1
            (init_cycfg_all (cybsp_init_vdda cfg (cybsp_init_sysInit cfg env s).1
              (cybsp_init_sysInit cfg env s).2.1).1)).1
          (cybsp_init_pmCallback env (cybsp_init_sysInit cfg env s).1
            (init_cycfg_all (cybsp_init_vdda cfg (cybsp_init_sysInit cfg env s).1
              (cybsp_init_sysInit cfg env s).2.1).1)).2.1).2.2) = 0 := by
      rw [List.count_eq_zero]
      intro hmem
      rcases h4 _ hmem with h | h | h <;> simp_all
    rcases h1 with h1 | h1 | h1 <;> rcases h2 with h2 | h2 <;>
      rcases h3 with h3 | h3 <;> simp_all
  · simp only [cybsp_init]
    rw [halTail_preserves_cfgApplied, pmCallback_preserves_cfgApplied]
    simp [init_cycfg_all]

/-! ### Claim C9 -/

/-- Claim C9: with `CY_USING_HAL` defined and `CY_CFG_PWR_SYS_IDLE_MODE`
not defined, `cybsp_init` locks deep-sleep entry unconditionally — the
lock event appears in the trace for every environment and every starting
state, including ones where every fallible earlier step failed. -/
theorem claimC9_deepsleep_lock_unconditional (cfg : BuildCfg) (env : Env)
    (s : BoardState) (hHal : cfg.usingHal = true)
    (hIdle : cfg.sysIdleMode = false) :
    Event.lockDeepSleep ∈ (cybsp_init cfg env s).2.2 := by
  simp only [cybsp_init, List.append_assoc, List.mem_append]
  right; right; right; right
  unfold cybsp_init_halTail
  repeat' split <;> simp_all

/-- Claim C9 witness: concrete instantiation with an environment in which
the resource-manager init, syspm init and callback registration all fail. -/
theorem claimC9_witness :
    Event.lockDeepSleep ∈
      (cybsp_init ⟨true, false, none, false⟩ ⟨false, false, 0⟩
        emptyBoardState).2.2 :=
  claimC9_deepsleep_lock_unconditional ⟨true, false, none, false⟩
    ⟨false, false, 0⟩ emptyBoardState rfl rfl

/-! ### Path lemmas for the sequencer stages -/

theorem clock1_ne_clock2 : clock1 ≠ clock2 := by decide

theorem sysInit_ok (cfg : BuildCfg) (env : Env) (s : BoardState)
    (hHal : cfg.usingHal = true) (h1 : env.hwmgrInitOk = true)
    (h2 : env.syspmInitOk = true) :
    cybsp_init_sysInit cfg env s =
      (CyRslt.success, s, [Event.hwmgrInit, Event.syspmInit]) := by
  unfold cybsp_init_sysInit cyhal_hwmgr_init cyhal_syspm_init
  simp [hHal, h1, h2]

theorem sysInit_noHal (cfg : BuildCfg) (env : Env) (s : BoardState)
    (hHal : cfg.usingHal = false) :
    cybsp_init_sysInit cfg env s = (CyRslt.success, s, []) := by
  unfold cybsp_init_sysInit
  simp [hHal]

theorem sysInit_hwmgrFail (cfg : BuildCfg) (env : Env) (s : BoardState)
    (hHal : cfg.usingHal = true) (h1 : env.hwmgrInitOk = false) :
    cybsp_init_sysInit cfg env s =
      (CyRslt.hwmgrInitError, s, [Event.hwmgrInit]) := by
  unfold cybsp_init_sysInit cyhal_hwmgr_init
  simp [hHal, h1]

theorem sysInit_syspmFail (cfg : BuildCfg) (env : Env) (s : BoardState)
    (hHal : cfg.usingHal = true) (h1 : env.hwmgrInitOk = true)
    (h2 : env.syspmInitOk = false) :
    cybsp_init_sysInit cfg env s =
      (CyRslt.syspmInitError, s, [Event.hwmgrInit, Event.syspmInit]) := by
  unfold cybsp_init_sysInit cyhal_hwmgr_init cyhal_syspm_init
  simp [hHal, h1, h2]

theorem vdda_ok_hal (cfg : BuildCfg) (s : BoardState)
    (hHal : cfg.usingHal = true) :
    cybsp_init_vdda cfg CyRslt.success s =
      (cyhal_syspm_set_supply_voltage (CY_CFG_PWR_VDDA_MV cfg) s,
       [Event.setSupplyVoltage (CY_CFG_PWR_VDDA_MV cfg)]) := by
  unfold cybsp_init_vdda
  simp [hHal]

theorem vdda_notSuccess (cfg : BuildCfg) (r : CyRslt) (s : BoardState)
    (hr : r ≠ CyRslt.success) :
    cybsp_init_vdda cfg r s = (s, []) := by
  unfold cybsp_init_vdda
  simp [hr]

theorem vdda_preserves_callbacks (cfg : BuildCfg) (r : CyRslt)
    (s : BoardState) :
    (cybsp_init_vdda cfg r s).1.callbacks = s.callbacks := by
  unfold cybsp_init_vdda cyhal_syspm_set_supply_voltage
  repeat' split <;> simp_all

theorem pmCallback_ok (env : Env) (s : BoardState)
    (hcap : s.callbacks.length < env.callbackCapacity) :
    cybsp_init_pmCallback env CyRslt.success s =
      (CyRslt.success,
       { s with callbacks :=
           (insertByOrder cybsp_sysclk_pm_callback s.callbacks) },
       [Event.registerSysclkCallback]) := by
  unfold cybsp_init_pmCallback cybsp_register_sysclk_pm_callback
    Cy_SysPm_RegisterCallback
  simp [hcap]

theorem pmCallback_full (env : Env) (s : BoardState)
    (hcap : ¬s.callbacks.length < env.callbackCapacity) :
    cybsp_init_pmCallback env CyRslt.success s =
      (CyRslt.sysclkPmCallbackError, s, [Event.registerSysclkCallback]) := by
  unfold cybsp_init_pmCallback cybsp_register_sysclk_pm_callback
    Cy_SysPm_RegisterCallback
  simp [hcap]

theorem pmCallback_notSuccess (env : Env) (r : CyRslt) (s : BoardState)
    (hr : r ≠ CyRslt.success) :
    cybsp_init_pmCallback env r s = (r, s, []) := by
  unfold cybsp_init_pmCallback
  simp [hr]

theorem halTail_noHal (cfg : BuildCfg) (r : CyRslt) (s : BoardState)
    (hHal : cfg.usingHal = false) :
    cybsp_init_halTail cfg r s = (r, s, []) := by
  unfold cybsp_init_halTail
  simp [hHal]

theorem halTail_notSuccess (cfg : BuildCfg) (r : CyRslt) (s : BoardState)
    (hHal : cfg.usingHal = true) (hr : r ≠ CyRslt.success) :
    cybsp_init_halTail cfg r s =
      (r, if cfg.sysIdleMode then s else cyhal_syspm_lock_deepsleep s,
       if cfg.sysIdleMode then [] else [Event.lockDeepSleep]) := by
  unfold cybsp_init_halTail
  by_cases hI : cfg.sysIdleMode <;> simp [hHal, hI, hr]

theorem halTail_success_conflict (cfg : BuildCfg) (s : BoardState)
    (hHal : cfg.usingHal = true) (hc1 : clock1 ∈ s.reserved) :
    cybsp_init_halTail cfg CyRslt.success s =
      (CyRslt.inUse clock1,
       if cfg.sysIdleMode then s else cyhal_syspm_lock_deepsleep s,
       (if cfg.sysIdleMode then [] else [Event.lockDeepSleep]) ++
         [Event.reserve clock1]) := by
  unfold cybsp_init_halTail cyhal_hwmgr_reserve cyhal_syspm_lock_deepsleep
  by_cases hI : cfg.sysIdleMode <;> simp [hHal, hI, hc1]

theorem halTail_success_free (cfg : BuildCfg) (s : BoardState)
    (hHal : cfg.usingHal = true) (hc1 : clock1 ∉ s.reserved)
    (hc2 : clock2 ∉ s.reserved) :
    cybsp_init_halTail cfg CyRslt.success s =
      (CyRslt.success,
       { s with
         reserved := clock2 :: clock1 :: s.reserved,
         deepsleepLocks :=
           if cfg.sysIdleMode then s.deepsleepLocks
           else s.deepsleepLocks + 1 },
       (if cfg.sysIdleMode then [] else [Event.lockDeepSleep]) ++
         [Event.reserve clock1, Event.reserve clock2]) := by
  unfold cybsp_init_halTail cyhal_hwmgr_reserve cyhal_syspm_lock_deepsleep
  have hne : clock2 ≠ clock1 := fun h => clock1_ne_clock2 h.symm
  by_cases hI : cfg.sysIdleMode <;> simp [hHal, hI, hc1, hc2, hne]

/-! ### Whole-run characterizations of `cybsp_init` -/

theorem cybsp_init_nominal_run (cfg : BuildCfg) (env : Env) (s : BoardState)
    (hHal : cfg.usingHal = true) (h1 : env.hwmgrInitOk = true)
    (h2 : env.syspmInitOk = true)
    (hcap : s.callbacks.length < env.callbackCapacity)
    (hc1 : clock1 ∉ s.reserved) (hc2 : clock2 ∉ s.reserved) :
    cybsp_init cfg env s =
      (CyRslt.success,
       { reserved := clock2 :: clock1 :: s.reserved,
         callbacks := (insertByOrder cybsp_sysclk_pm_callback s.callbacks),
         cfgApplied := true,
         vdda := some (CY_CFG_PWR_VDDA_MV cfg),
         deepsleepLocks :=
           if cfg.sysIdleMode then s.deepsleepLocks
           else s.deepsleepLocks + 1 },
       [Event.hwmgrInit, Event.syspmInit,
        Event.setSupplyVoltage (CY_CFG_PWR_VDDA_MV cfg), Event.initCycfgAll,
        Event.registerSysclkCallback] ++
         (if cfg.sysIdleMode then [] else [Event.lockDeepSleep]) ++
         [Event.reserve clock1, Event.reserve clock2]) := by
  by_cases hI : cfg.sysIdleMode <;>
    simp [cybsp_init, sysInit_ok cfg env s hHal h1 h2, vdda_ok_hal cfg s hHal,
      init_cycfg_all, cyhal_syspm_set_supply_voltage, pmCallback_ok,
      halTail_success_free, hcap, hc1, hc2, hI, hHal]

theorem cybsp_init_conflict_run (cfg : BuildCfg) (env : Env) (s : BoardState)
    (hHal : cfg.usingHal = true) (h1 : env.hwmgrInitOk = true)
    (h2 : env.syspmInitOk = true)
    (hcap : s.callbacks.length < env.callbackCapacity)
    (hc1 : clock1 ∈ s.reserved) :
    cybsp_init cfg env s =
      (CyRslt.inUse clock1,
       { reserved := s.reserved,
         callbacks := (insertByOrder cybsp_sysclk_pm_callback s.callbacks),
         cfgApplied := true,
         vdda := some (CY_CFG_PWR_VDDA_MV cfg),
         deepsleepLocks :=
           if cfg.sysIdleMode then s.deepsleepLocks
           else s.deepsleepLocks + 1 },
       [Event.hwmgrInit, Event.syspmInit,
        Event.setSupplyVoltage (CY_CFG_PWR_VDDA_MV cfg), Event.initCycfgAll,
        Event.registerSysclkCallback] ++
         (if cfg.sysIdleMode then [] else [Event.lockDeepSleep]) ++
         [Event.reserve clock1]) := by
  by_cases hI : cfg.sysIdleMode <;>
    simp [cybsp_init, sysInit_ok cfg env s hHal h1 h2, vdda_ok_hal cfg s hHal,
      init_cycfg_all, cyhal_syspm_set_supply_voltage, pmCallback_ok,
      halTail_success_conflict, cyhal_syspm_lock_deepsleep, hcap, hc1, hI,
      hHal]

theorem cybsp_init_hwmgrFail_run (cfg : BuildCfg) (env : Env) (s : BoardState)
    (hHal : cfg.usingHal = true) (h1 : env.hwmgrInitOk = false) :
    cybsp_init cfg env s =
      (CyRslt.hwmgrInitError,
       { s with
         cfgApplied := true,
         deepsleepLocks :=
           if cfg.sysIdleMode then s.deepsleepLocks
           else s.deepsleepLocks + 1 },
       [Event.hwmgrInit, Event.initCycfgAll] ++
         (if cfg.sysIdleMode then [] else [Event.lockDeepSleep])) := by
  by_cases hI : cfg.sysIdleMode <;>
    simp [cybsp_init, sysInit_hwmgrFail cfg env s hHal h1, vdda_notSuccess,
      pmCallback_notSuccess, halTail_notSuccess, init_cycfg_all,
      cyhal_syspm_lock_deepsleep, hI, hHal]

theorem cybsp_init_regFail_run (cfg : BuildCfg) (env : Env) (s : BoardState)
    (hHal : cfg.usingHal = true) (h1 : env.hwmgrInitOk = true)
    (h2 : env.syspmInitOk = true)
    (hcap : ¬s.callbacks.length < env.callbackCapacity) :
    cybsp_init cfg env s =
      (CyRslt.sysclkPmCallbackError,
       { s with
         cfgApplied := true,
         vdda := some (CY_CFG_PWR_VDDA_MV cfg),
         deepsleepLocks :=
           if cfg.sysIdleMode then s.deepsleepLocks
           else s.deepsleepLocks + 1 },
       [Event.hwmgrInit, Event.syspmInit,
        Event.setSupplyVoltage (CY_CFG_PWR_VDDA_MV cfg), Event.initCycfgAll,
        Event.registerSysclkCallback] ++
         (if cfg.sysIdleMode then [] else [Event.lockDeepSleep])) := by
  by_cases hI : cfg.sysIdleMode <;>
    simp [cybsp_init, sysInit_ok cfg env s hHal h1 h2, vdda_ok_hal cfg s hHal,
      init_cycfg_all, cyhal_syspm_set_supply_voltage, pmCallback_full,
      halTail_notSuccess, cyhal_syspm_lock_deepsleep, hcap, hI, hHal]

theorem cybsp_init_syspmFail_run (cfg : BuildCfg) (env : Env) (s : BoardState)
    (hHal : cfg.usingHal = true) (h1 : env.hwmgrInitOk = true)
    (h2 : env.syspmInitOk = false) :
    cybsp_init cfg env s =
      (CyRslt.syspmInitError,
       { s with
         cfgApplied := true,
         deepsleepLocks :=
           if cfg.sysIdleMode then s.deepsleepLocks
           else s.deepsleepLocks + 1 },
       [Event.hwmgrInit, Event.syspmInit, Event.initCycfgAll] ++
         (if cfg.sysIdleMode then [] else [Event.lockDeepSleep])) := by
  by_cases hI : cfg.sysIdleMode <;>
    simp [cybsp_init, sysInit_syspmFail cfg env s hHal h1 h2, vdda_notSuccess,
      pmCallback_notSuccess, halTail_notSuccess, init_cycfg_all,
      cyhal_syspm_lock_deepsleep, hI, hHal]

theorem cybsp_init_noHal_run (cfg : BuildCfg) (env : Env) (s : BoardState)
    (hHal : cfg.usingHal = false)
    (hcap : s.callbacks.length < env.callbackCapacity) :
    cybsp_init cfg env s =
      (CyRslt.success,
       { reserved := s.reserved,
         callbacks := (insertByOrder cybsp_sysclk_pm_callback s.callbacks),
         cfgApplied := true,
         vdda :=
           if cfg.usingHalLite then some (CY_CFG_PWR_VDDA_MV cfg)
           else s.vdda,
         deepsleepLocks := s.deepsleepLocks },
       (if cfg.usingHalLite then
          [Event.setSupplyVoltage (CY_CFG_PWR_VDDA_MV cfg)]
        else []) ++
         [Event.initCycfgAll, Event.registerSysclkCallback]) := by
  by_cases hL : cfg.usingHalLite <;>
    simp [cybsp_init, sysInit_noHal cfg env s hHal, cybsp_init_vdda,
      init_cycfg_all, cyhal_syspm_set_supply_voltage, pmCallback_ok,
      halTail_noHal, hcap, hHal, hL]

theorem setSupply_not_mem_pmCallback (env : Env) (r : CyRslt) (s : BoardState)
    (mv : Nat) :
    Event.setSupplyVoltage mv ∉ (cybsp_init_pmCallback env r s).2.2 := by
  rcases pmCallback_trace_shape env r s with h | h <;> simp [h]

theorem setSupply_not_mem_halTail (cfg : BuildCfg) (r : CyRslt)
    (s : BoardState) (mv : Nat) :
    Event.setSupplyVoltage mv ∉ (cybsp_init_halTail cfg r s).2.2 := by
  intro hmem
  rcases halTail_trace_shape cfg r s _ hmem with h | h | h <;> simp_all

/-! ### Claim C3 -/

/-- Claim C3: the sysclk power-mode callback registered by
`cybsp_register_sysclk_pm_callback` carries priority order
`CYBSP_SYSCLK_PM_CALLBACK_ORDER` (255), which is numerically greater than
or equal to the order of every other callback representable in the chain
(the `order` field is a `uint8_t`), for any set of callbacks registered
before or after it; consequently inserting it into any chain (ordered by
priority ascending, i.e. entering-low-power invocation order) places it
last, so it runs last on entry and first on exit. -/
theorem claimC3_sysclk_callback_priority_max
    (cbs : List CyStcSyspmCallback) :
    (∀ cb ∈ cbs, cb.order ≤ cybsp_sysclk_pm_callback.order) ∧
    insertByOrder cybsp_sysclk_pm_callback cbs =
      cbs ++ [cybsp_sysclk_pm_callback] := by
  have h255 : cybsp_sysclk_pm_callback.order = Fin.last 255 := by decide
  constructor
  · intro cb _
    rw [h255]
    exact Fin.le_last cb.order
  · induction cbs with
    | nil => simp [insertByOrder]
    | cons c cs ih =>
      have hc : c.order ≤ cybsp_sysclk_pm_callback.order := by
        rw [h255]; exact Fin.le_last c.order
      simp [insertByOrder, hc, ih]

/-- Claim C3 witness: a concrete chain holding two other callbacks, one of
which has the maximal order 255 itself. -/
theorem claimC3_witness :
    (∀ cb ∈ [CyStcSyspmCallback.mk (CySyspmCallbackFn.app 0)
               CySyspmCallbackKind.deepsleep 17,
             CyStcSyspmCallback.mk (CySyspmCallbackFn.app 1)
               CySyspmCallbackKind.hibernate 255],
       cb.order ≤ cybsp_sysclk_pm_callback.order) ∧
    insertByOrder cybsp_sysclk_pm_callback
        [CyStcSyspmCallback.mk (CySyspmCallbackFn.app 0)
           CySyspmCallbackKind.deepsleep 17,
         CyStcSyspmCallback.mk (CySyspmCallbackFn.app 1)
           CySyspmCallbackKind.hibernate 255] =
      [CyStcSyspmCallback.mk (CySyspmCallbackFn.app 0)
         CySyspmCallbackKind.deepsleep 17,
       CyStcSyspmCallback.mk (CySyspmCallbackFn.app 1)
         CySyspmCallbackKind.hibernate 255] ++
        [cybsp_sysclk_pm_callback] :=
  claimC3_sysclk_callback_priority_max
    [CyStcSyspmCallback.mk (CySyspmCallbackFn.app 0)
       CySyspmCallbackKind.deepsleep 17,
     CyStcSyspmCallback.mk (CySyspmCallbackFn.app 1)
       CySyspmCallbackKind.hibernate 255]

/-! ### Claim C10 -/

/-- Claim C10: when the build does not define `CY_CFG_PWR_VDDA_MV`, the
default of 3300 mV is used, and the set-supply-voltage call is made
exactly when the resource-manager and syspm initialization steps both
succeeded — it is skipped on any earlier failure. -/
theorem claimC10_default_vdda_and_guard (cfg : BuildCfg) (env : Env)
    (s : BoardState) (hHal : cfg.usingHal = true)
    (hV : cfg.vddaMv = none) :
    (env.hwmgrInitOk = true → env.syspmInitOk = true →
      Event.setSupplyVoltage 3300 ∈ (cybsp_init cfg env s).2.2) ∧
    ((env.hwmgrInitOk = false ∨ env.syspmInitOk = false) →
      ∀ mv, Event.setSupplyVoltage mv ∉ (cybsp_init cfg env s).2.2) := by
  constructor
  · intro h1 h2
    simp [cybsp_init, List.mem_append, sysInit_ok cfg env s hHal h1 h2,
      vdda_ok_hal cfg s hHal, CY_CFG_PWR_VDDA_MV, hV]
  · intro h mv
    rcases h with h1 | h2
    · rw [cybsp_init_hwmgrFail_run cfg env s hHal h1]
      by_cases hI : cfg.sysIdleMode <;> simp [hI]
    · by_cases hw : env.hwmgrInitOk
      · rw [cybsp_init_syspmFail_run cfg env s hHal hw h2]
        by_cases hI : cfg.sysIdleMode <;> simp [hI]
      · rw [cybsp_init_hwmgrFail_run cfg env s hHal (by simp [hw])]
        by_cases hI : cfg.sysIdleMode <;> simp [hI]

/-- Claim C10 witness: default build (no `CY_CFG_PWR_VDDA_MV`), nominal
environment — the 3300 mV set-supply event occurs; and the skip direction
is vacuous for this environment. -/
theorem claimC10_witness :
    ((⟨true, true, 4⟩ : Env).hwmgrInitOk = true →
      (⟨true, true, 4⟩ : Env).syspmInitOk = true →
      Event.setSupplyVoltage 3300 ∈
        (cybsp_init ⟨true, false, none, false⟩ ⟨true, true, 4⟩
          emptyBoardState).2.2) ∧
    (((⟨true, true, 4⟩ : Env).hwmgrInitOk = false ∨
        (⟨true, true, 4⟩ : Env).syspmInitOk = false) →
      ∀ mv, Event.setSupplyVoltage mv ∉
        (cybsp_init ⟨true, false, none, false⟩ ⟨true, true, 4⟩
          emptyBoardState).2.2) :=
  claimC10_default_vdda_and_guard ⟨true, false, none, false⟩ ⟨true, true, 4⟩
    emptyBoardState rfl rfl

/-! ### Claim C6 -/

/-- Claim C6: with `CY_USING_HAL` not defined (resource tracking disabled),
`cybsp_init` performs no reservation step at all and returns success, even
from a state in which both default divider blocks are already reserved and
would conflict.  (The power-callback chain is assumed to have a free slot,
the nominal platform condition.) -/
theorem claimC6_no_hal_skips_reservations (cfg : BuildCfg) (env : Env)
    (s : BoardState) (hHal : cfg.usingHal = false)
    (hcap : s.callbacks.length < env.callbackCapacity)
    (hc1 : clock1 ∈ s.reserved) (hc2 : clock2 ∈ s.reserved) :
    (cybsp_init cfg env s).1 = CyRslt.success ∧
    ∀ r, Event.reserve r ∉ (cybsp_init cfg env s).2.2 := by
  rw [cybsp_init_noHal_run cfg env s hHal hcap]
  refine ⟨rfl, ?_⟩
  intro r
  by_cases hL : cfg.usingHalLite <;> simp [hL]

/-- Claim C6 witness: a state with both default divider blocks already
reserved, resource tracking disabled. -/
theorem claimC6_witness :
    (cybsp_init ⟨false, false, none, false⟩ ⟨true, true, 4⟩
        ⟨[clock1, clock2], [], false, none, 0⟩).1 = CyRslt.success ∧
    ∀ r, Event.reserve r ∉
      (cybsp_init ⟨false, false, none, false⟩ ⟨true, true, 4⟩
        ⟨[clock1, clock2], [], false, none, 0⟩).2.2 :=
  claimC6_no_hal_skips_reservations ⟨false, false, none, false⟩
    ⟨true, true, 4⟩ ⟨[clock1, clock2], [], false, none, 0⟩ rfl
    (by decide) (by decide) (by decide)

/-! ### Claim C5 -/

/-- Claim C5: running `cybsp_init` twice in a row with resource tracking
enabled, from the empty registry and a nominal environment, yields the
same final configuration state (configuration flag, supply voltage,
registry) as one run; the first call returns success and the second
returns the already-reserved failure referencing the first
default-reserved block (16-bit divider, channel 0). -/
theorem claimC5_double_init_idempotent_config (cfg : BuildCfg) (env : Env)
    (hHal : cfg.usingHal = true) (h1 : env.hwmgrInitOk = true)
    (h2 : env.syspmInitOk = true) (hcap : 1 < env.callbackCapacity) :
    (cybsp_init cfg env emptyBoardState).1 = CyRslt.success ∧
    (cybsp_init cfg env (cybsp_init cfg env emptyBoardState).2.1).1 =
      CyRslt.inUse clock1 ∧
    configState
        (cybsp_init cfg env
          (cybsp_init cfg env emptyBoardState).2.1).2.1 =
      configState (cybsp_init cfg env emptyBoardState).2.1 := by
  have e1 := cybsp_init_nominal_run cfg env emptyBoardState hHal h1 h2
    (by simp [emptyBoardState]; omega) (by simp [emptyBoardState])
    (by simp [emptyBoardState])
  have hs1 : (cybsp_init cfg env emptyBoardState).2.1 =
      ⟨[clock2, clock1], [cybsp_sysclk_pm_callback], true,
       some (CY_CFG_PWR_VDDA_MV cfg),
       if cfg.sysIdleMode then 0 else 1⟩ := by
    rw [e1]
    simp [emptyBoardState, insertByOrder]
  have e2 := cybsp_init_conflict_run cfg env
    ⟨[clock2, clock1], [cybsp_sysclk_pm_callback], true,
     some (CY_CFG_PWR_VDDA_MV cfg), if cfg.sysIdleMode then 0 else 1⟩
    hHal h1 h2 (by simpa using hcap) (by simp)
  refine ⟨?_, ?_, ?_⟩
  · rw [e1]
  · rw [hs1, e2]
  · rw [hs1, e2]
    simp [configState]

/-- Claim C5 witness: concrete default build and nominal environment with
chain capacity 2. -/
theorem claimC5_witness :
    (cybsp_init ⟨true, false, none, false⟩ ⟨true, true, 2⟩
        emptyBoardState).1 = CyRslt.success ∧
    (cybsp_init ⟨true, false, none, false⟩ ⟨true, true, 2⟩
        (cybsp_init ⟨true, false, none, false⟩ ⟨true, true, 2⟩
          emptyBoardState).2.1).1 = CyRslt.inUse clock1 ∧
    configState
        (cybsp_init ⟨true, false, none, false⟩ ⟨true, true, 2⟩
          (cybsp_init ⟨true, false, none, false⟩ ⟨true, true, 2⟩
            emptyBoardState).2.1).2.1 =
      configState
        (cybsp_init ⟨true, false, none, false⟩ ⟨true, true, 2⟩
          emptyBoardState).2.1 :=
  claimC5_double_init_idempotent_config ⟨true, false, none, false⟩
    ⟨true, true, 2⟩ rfl rfl rfl (by decide)

/-! ### Claim C1 (corrected) -/

/-- Claim C1 counterexample: starting with the first divider channel
already reserved (nominal environment, default HAL build), `cybsp_init`
returns the first reservation failure but never attempts the second
reservation — the trace has no `reserve clock2` event — refuting the
claim that the sequencer attempts every reservation in the set. -/
theorem claimC1_counterexample :
    (cybsp_init ⟨true, false, none, false⟩ ⟨true, true, 8⟩
        ⟨[clock1], [], false, none, 0⟩).1 = CyRslt.inUse clock1 ∧
    Event.reserve clock1 ∈
      (cybsp_init ⟨true, false, none, false⟩ ⟨true, true, 8⟩
        ⟨[clock1], [], false, none, 0⟩).2.2 ∧
    Event.reserve clock2 ∉
      (cybsp_init ⟨true, false, none, false⟩ ⟨true, true, 8⟩
        ⟨[clock1], [], false, none, 0⟩).2.2 := by
  decide

/-- Claim C1 (amended): a failure to reserve the first default block
aborts the remaining reservation — the sequencer attempts each
reservation only while no failure has occurred, skips the second
reservation after the first fails, and returns that first failure. -/
theorem claimC1_amended_first_failure_aborts (cfg : BuildCfg) (env : Env)
    (s : BoardState) (hHal : cfg.usingHal = true)
    (h1 : env.hwmgrInitOk = true) (h2 : env.syspmInitOk = true)
    (hcap : s.callbacks.length < env.callbackCapacity)
    (hc1 : clock1 ∈ s.reserved) :
    (cybsp_init cfg env s).1 = CyRslt.inUse clock1 ∧
    Event.reserve clock1 ∈ (cybsp_init cfg env s).2.2 ∧
    Event.reserve clock2 ∉ (cybsp_init cfg env s).2.2 := by
  rw [cybsp_init_conflict_run cfg env s hHal h1 h2 hcap hc1]
  refine ⟨rfl, ?_, ?_⟩
  · simp
  · by_cases hI : cfg.sysIdleMode <;> simp [hI, clock1_ne_clock2.symm]

/-- Claim C1 witness: the amended behaviour at a concrete conflicted
state. -/
theorem claimC1_witness :
    (cybsp_init ⟨true, false, none, true⟩ ⟨true, true, 3⟩
        ⟨[clock1], [], false, none, 0⟩).1 = CyRslt.inUse clock1 ∧
    Event.reserve clock1 ∈
      (cybsp_init ⟨true, false, none, true⟩ ⟨true, true, 3⟩
        ⟨[clock1], [], false, none, 0⟩).2.2 ∧
    Event.reserve clock2 ∉
      (cybsp_init ⟨true, false, none, true⟩ ⟨true, true, 3⟩
        ⟨[clock1], [], false, none, 0⟩).2.2 :=
  claimC1_amended_first_failure_aborts ⟨true, false, none, true⟩
    ⟨true, true, 3⟩ ⟨[clock1], [], false, none, 0⟩ rfl rfl rfl (by decide)
    (by decide)

/-! ### Claim C4 (corrected) -/

/-- Claim C4 counterexample: with the callback slot table exhausted
(capacity 0) and everything earlier succeeding, `cybsp_init` reports the
registration failure and still locks deep sleep, but it does NOT continue
with the default resource reservations — neither divider block is ever
attempted — refuting the claim that the sequence continues with the
reservations after a registration failure. -/
theorem claimC4_counterexample :
    (cybsp_init ⟨true, false, none, false⟩ ⟨true, true, 0⟩
        emptyBoardState).1 = CyRslt.sysclkPmCallbackError ∧
    Event.lockDeepSleep ∈
      (cybsp_init ⟨true, false, none, false⟩ ⟨true, true, 0⟩
        emptyBoardState).2.2 ∧
    Event.reserve clock1 ∉
      (cybsp_init ⟨true, false, none, false⟩ ⟨true, true, 0⟩
        emptyBoardState).2.2 ∧
    Event.reserve clock2 ∉
      (cybsp_init ⟨true, false, none, false⟩ ⟨true, true, 0⟩
        emptyBoardState).2.2 := by
  decide

/-- Claim C4 (amended): a callback-registration failure is non-fatal in
that the sequence still performs the deep-sleep lock and returns normally,
and the registration failure is reported as the final aggregate result
when no earlier step failed; however the default resource reservations are
skipped, not attempted. -/
theorem claimC4_amended_registration_failure (cfg : BuildCfg) (env : Env)
    (s : BoardState) (hHal : cfg.usingHal = true)
    (h1 : env.hwmgrInitOk = true) (h2 : env.syspmInitOk = true)
    (hcap : ¬s.callbacks.length < env.callbackCapacity) :
    (cybsp_init cfg env s).1 = CyRslt.sysclkPmCallbackError ∧
    (cfg.sysIdleMode = false →
      Event.lockDeepSleep ∈ (cybsp_init cfg env s).2.2) ∧
    ∀ r, Event.reserve r ∉ (cybsp_init cfg env s).2.2 := by
  rw [cybsp_init_regFail_run cfg env s hHal h1 h2 hcap]
  refine ⟨rfl, ?_, ?_⟩
  · intro hI; simp [hI]
  · intro r
    by_cases hI : cfg.sysIdleMode <;> simp [hI]

/-- Claim C4 witness: exhausted chain (capacity 0) in the default HAL
build. -/
theorem claimC4_witness :
    (cybsp_init ⟨true, false, none, false⟩ ⟨true, true, 0⟩
        emptyBoardState).1 = CyRslt.sysclkPmCallbackError ∧
    ((⟨true, false, none, false⟩ : BuildCfg).sysIdleMode = false →
      Event.lockDeepSleep ∈
        (cybsp_init ⟨true, false, none, false⟩ ⟨true, true, 0⟩
          emptyBoardState).2.2) ∧
    ∀ r, Event.reserve r ∉
      (cybsp_init ⟨true, false, none, false⟩ ⟨true, true, 0⟩
        emptyBoardState).2.2 :=
  claimC4_amended_registration_failure ⟨true, false, none, false⟩
    ⟨true, true, 0⟩ emptyBoardState rfl rfl rfl (by decide)

/-! ### Claim C7 (corrected) -/

/-- Claim C7 counterexample: with the supply-voltage knob set
(`CY_CFG_PWR_VDDA_MV` = 3300), both the set-supply-voltage call and the
configuration apply occur in a nominal run, but the set-supply-voltage
call comes strictly earlier in the trace — it does not happen after
`init_cycfg_all` as the claim states. -/
theorem claimC7_counterexample :
    Event.setSupplyVoltage 3300 ∈
      (cybsp_init ⟨true, false, some 3300, false⟩ ⟨true, true, 8⟩
        emptyBoardState).2.2 ∧
    Event.initCycfgAll ∈
      (cybsp_init ⟨true, false, some 3300, false⟩ ⟨true, true, 8⟩
        emptyBoardState).2.2 ∧
    List.indexOf (Event.setSupplyVoltage 3300)
        (cybsp_init ⟨true, false, some 3300, false⟩ ⟨true, true, 8⟩
          emptyBoardState).2.2 <
      List.indexOf Event.initCycfgAll
        (cybsp_init ⟨true, false, some 3300, false⟩ ⟨true, true, 8⟩
          emptyBoardState).2.2 := by
  decide

/-- Claim C7 (amended): the target analog supply voltage is applied BEFORE
the static configuration table: every trace of `cybsp_init` splits around
its configuration-apply event such that no set-supply-voltage event occurs
after it. -/
theorem claimC7_amended_vdda_before_config (cfg : BuildCfg) (env : Env)
    (s : BoardState) :
    ∃ pre post,
      (cybsp_init cfg env s).2.2 = pre ++ Event.initCycfgAll :: post ∧
      ∀ mv, Event.setSupplyVoltage mv ∉ post := by
  let a := cybsp_init_sysInit cfg env s
  let b := cybsp_init_vdda cfg a.1 a.2.1
  let c := cybsp_init_pmCallback env a.1 (init_cycfg_all b.1)
  let d := cybsp_init_halTail cfg c.1 c.2.1
  refine ⟨a.2.2 ++ b.2, c.2.2 ++ d.2.2, ?_, ?_⟩
  · have h0 : (cybsp_init cfg env s).2.2 =
        a.2.2 ++ b.2 ++ [Event.initCycfgAll] ++ c.2.2 ++ d.2.2 := rfl
    rw [h0]
    simp [List.append_assoc]
  · intro mv hmem
    rcases List.mem_append.mp hmem with h | h
    · exact setSupply_not_mem_pmCallback env a.1 (init_cycfg_all b.1) mv h
    · exact setSupply_not_mem_halTail cfg c.1 c.2.1 mv h

/-! ### Claim C8 (corrected) -/

/-- Claim C8 counterexample: when `cyhal_hwmgr_init` fails, `cybsp_init`
returns that failure, yet the configuration apply and the deep-sleep lock
still execute — refuting the claim that ALL subsequent steps are
skipped. -/
theorem claimC8_counterexample :
    (cybsp_init ⟨true, false, none, false⟩ ⟨false, true, 8⟩
        emptyBoardState).1 = CyRslt.hwmgrInitError ∧
    Event.initCycfgAll ∈
      (cybsp_init ⟨true, false, none, false⟩ ⟨false, true, 8⟩
        emptyBoardState).2.2 ∧
    Event.lockDeepSleep ∈
      (cybsp_init ⟨true, false, none, false⟩ ⟨false, true, 8⟩
        emptyBoardState).2.2 := by
  decide

/-- Claim C8 (amended): a resource-manager initialization failure is
returned as the result of `cybsp_init` and skips the syspm init, the
supply-voltage set, the callback registration and the reservations, but
the configuration apply and (when `CY_CFG_PWR_SYS_IDLE_MODE` is not
defined) the deep-sleep lock still execute unconditionally. -/
theorem claimC8_amended_hwmgr_failure (cfg : BuildCfg) (env : Env)
    (s : BoardState) (hHal : cfg.usingHal = true)
    (h1 : env.hwmgrInitOk = false) :
    (cybsp_init cfg env s).1 = CyRslt.hwmgrInitError ∧
    Event.syspmInit ∉ (cybsp_init cfg env s).2.2 ∧
    (∀ mv, Event.setSupplyVoltage mv ∉ (cybsp_init cfg env s).2.2) ∧
    Event.registerSysclkCallback ∉ (cybsp_init cfg env s).2.2 ∧
    (∀ r, Event.reserve r ∉ (cybsp_init cfg env s).2.2) ∧
    Event.initCycfgAll ∈ (cybsp_init cfg env s).2.2 ∧
    (cfg.sysIdleMode = false →
      Event.lockDeepSleep ∈ (cybsp_init cfg env s).2.2) := by
  rw [cybsp_init_hwmgrFail_run cfg env s hHal h1]
  refine ⟨rfl, ?_, ?_, ?_, ?_, ?_, ?_⟩
  · by_cases hI : cfg.sysIdleMode <;> simp [hI]
  · intro mv
    by_cases hI : cfg.sysIdleMode <;> simp [hI]
  · by_cases hI : cfg.sysIdleMode <;> simp [hI]
  · intro r
    by_cases hI : cfg.sysIdleMode <;> simp [hI]
  · simp
  · intro hI; simp [hI]

/-- Claim C8 witness: concrete default build with a failing resource
manager. -/
theorem claimC8_witness :
    (cybsp_init ⟨true, false, none, false⟩ ⟨false, true, 8⟩
        emptyBoardState).1 = CyRslt.hwmgrInitError ∧
    Event.syspmInit ∉
      (cybsp_init ⟨true, false, none, false⟩ ⟨false, true, 8⟩
        emptyBoardState).2.2 ∧
    (∀ mv, Event.setSupplyVoltage mv ∉
      (cybsp_init ⟨true, false, none, false⟩ ⟨false, true, 8⟩
        emptyBoardState).2.2) ∧
    Event.registerSysclkCallback ∉
      (cybsp_init ⟨true, false, none, false⟩ ⟨false, true, 8⟩
        emptyBoardState).2.2 ∧
    (∀ r, Event.reserve r ∉
      (cybsp_init ⟨true, false, none, false⟩ ⟨false, true, 8⟩
        emptyBoardState).2.2) ∧
    Event.initCycfgAll ∈
      (cybsp_init ⟨true, false, none, false⟩ ⟨false, true, 8⟩
        emptyBoardState).2.2 ∧
    ((⟨true, false, none, false⟩ : BuildCfg).sysIdleMode = false →
      Event.lockDeepSleep ∈
        (cybsp_init ⟨true, false, none, false⟩ ⟨false, true, 8⟩
          emptyBoardState).2.2) :=
  claimC8_amended_hwmgr_failure ⟨true, false, none, false⟩ ⟨false, true, 8⟩
    emptyBoardState rfl rfl
